import Mathlib

/-!
Verification of the apistar websocket example service
(`service/handlers.py`, `service/app.py`, `client/app.py`).

Each async handler is embedded as a fuel-bounded interpreter that turns the
injected environment (inbound frames, upstream HTTP responses, randomness
streams) into the list of observable effects it performs on the session,
together with how the handler run ended.  Randomness is injected as streams,
following the design note that randomized payloads are treated as an injected,
seedable source.
-/

namespace WS

/-- JSON values, as produced by `response.json()` / sent by `ws.send_json`. -/
inductive Json where
  | str (s : String)
  | num (n : Int)
  | arr (elems : List Json)
  | obj (fields : List (String × Json))

/-- Result of one blocking `ws.receive()`: a text frame, or the peer
disconnected (in the Python source, `WebSocketDisconnect` is raised). -/
inductive RecvResult where
  | msg (s : String)
  | disconnect
  deriving Repr, DecidableEq

/-- Result of one blocking `ws.receive_json()`: a decoded frame, or the peer
disconnected. -/
inductive JRecvResult where
  | jmsg (j : Json)
  | disconnect

/-- One upstream HTTP response as seen through `aiohttp`:
`ok body` when the request succeeded and the body parsed as JSON,
`httpError code` when `response.raise_for_status()` raises. -/
inductive UpstreamResp where
  | ok (body : Json)
  | httpError (code : Nat)

/-- Observable effects a handler performs on its session / environment.
`connectAndClose code` is `ws.connect(close=True, close_code=code)`;
sleeps record seconds as rationals. -/
inductive Effect where
  | connect
  | connectAndClose (code : Nat)
  | send (s : String)
  | sendJson (j : Json)
  | close (code : Nat)
  | sleep (seconds : Rat)
  | httpGet (url : String)

/-- How a handler run ended.
`returned`: the handler function returned normally.
`disconnected`: a `WebSocketDisconnect` raised at a blocking receive or send
was not caught by the handler and propagated out of it.
`upstreamFault code`: the exception from `response.raise_for_status()`
propagated out of the handler.
`blocked`: the handler is suspended waiting on a receive and the injected
input stream has no further events.
`fuelOut`: the interpreter ran out of fuel inside the infinite loop. -/
inductive Term where
  | returned
  | disconnected
  | upstreamFault (code : Nat)
  | blocked
  | fuelOut
  deriving Repr, DecidableEq

/-- `apistar.websocket.status.WS_1002_PROT_ERROR`. -/
def WS_1002_PROT_ERROR : Nat := 1002

/-- `apistar.websocket.status.WS_1007_INALID_DATA` (name as spelled in the
status module the source imports). -/
def WS_1007_INALID_DATA : Nat := 1007

/-- The topic allow-list `TOPICS` from `service/handlers.py`. -/
def TOPICS : List String :=
  ["games", "puzzles", "vacations", "programs", "jobs", "python", "apistar"]

/-- Python `random.randint(lo, hi)` (inclusive on both ends), driven by an
injected natural number from the randomness stream. -/
def randint (lo hi r : Nat) : Nat := lo + r % (hi - lo + 1)

/-- Python `random.choice(seq)` on the topic tuple, driven by an injected
natural number from the randomness stream. -/
def pyChoice (l : List String) (r : Nat) : String := l.getD (r % l.length) ""

/-- Python `random.uniform(a, b) = a + (b - a) * random()`, with the injected
unit-interval draw clamped into `[0, 1]` (Python `random()` lies in `[0, 1)`). -/
def pyUniform (a b u : Rat) : Rat := a + (b - a) * (max 0 (min 1 u))

/-- Python `str.upper()` restricted to ASCII, as used on the symbol path
parameter. -/
def pyUpper (s : String) : String := ⟨s.data.map Char.toUpper⟩

/-- Python `str.startswith(pre)`: the character sequence of `pre` is a prefix
of that of `s`. -/
def pyStartswith (s pre : String) : Bool := pre.data.isPrefixOf s.data

/-- `hello`: connect, send one fixed text message, return (the framework then
auto-closes with the normal-closure code 1000). -/
def hello : List Effect × Term :=
  ([Effect.connect, Effect.send "Hello World!"], Term.returned)

/-- The `while True` loop of `ping_pong`: receive; a caught
`WebSocketDisconnect` makes the handler return; a frame other than
the literal "ping" makes it close with `WS_1002_PROT_ERROR` and return;
otherwise it sends "pong" and loops. -/
def pingPongLoop : Nat → List RecvResult → List Effect × Term
  | 0, _ => ([], Term.fuelOut)
  | _ + 1, [] => ([], Term.blocked)
  | _ + 1, RecvResult.disconnect :: _ => ([], Term.returned)
  | fuel + 1, RecvResult.msg m :: rest =>
      if m ≠ "ping" then ([Effect.close WS_1002_PROT_ERROR], Term.returned)
      else
        let r := pingPongLoop fuel rest
        (Effect.send "pong" :: r.1, r.2)

/-- Handler `ping_pong`: connect, then run the ping loop over the inbound
frame stream. -/
def ping_pong (fuel : Nat) (inputs : List RecvResult) : List Effect × Term :=
  let r := pingPongLoop fuel inputs
  (Effect.connect :: r.1, r.2)

/-- The `while True` loop of `consumer`: receive any frame, discard it, loop.
There is no `try/except`, so a `WebSocketDisconnect` raised by `ws.receive()`
propagates out of the handler. -/
def consumerLoop : Nat → List RecvResult → List Effect × Term
  | 0, _ => ([], Term.fuelOut)
  | _ + 1, [] => ([], Term.blocked)
  | _ + 1, RecvResult.disconnect :: _ => ([], Term.disconnected)
  | fuel + 1, RecvResult.msg _ :: rest => consumerLoop fuel rest

/-- Handler `consumer`: connect, then consume frames forever. -/
def consumer (fuel : Nat) (inputs : List RecvResult) : List Effect × Term :=
  let r := consumerLoop fuel inputs
  (Effect.connect :: r.1, r.2)

/-- The `while True` loop of `consumer_of_json`: `ws.receive_json()`, discard,
loop; a `WebSocketDisconnect` propagates out of the handler (no `try/except`). -/
def consumerJsonLoop : Nat → List JRecvResult → List Effect × Term
  | 0, _ => ([], Term.fuelOut)
  | _ + 1, [] => ([], Term.blocked)
  | _ + 1, JRecvResult.disconnect :: _ => ([], Term.disconnected)
  | fuel + 1, JRecvResult.jmsg _ :: rest => consumerJsonLoop fuel rest

/-- Handler `consumer_of_json`: connect, then consume decoded frames forever. -/
def consumer_of_json (fuel : Nat) (inputs : List JRecvResult) : List Effect × Term :=
  let r := consumerJsonLoop fuel inputs
  (Effect.connect :: r.1, r.2)

/-- The `while True` loop of `producer`: send the decimal rendering of
`random.randint(0, 1000000)` and loop, with no sleep between sends.
`sendOk i = false` means the send at step `i` observes the peer gone and
raises; nothing in the handler catches it. -/
def producerLoop (ints : Nat → Nat) (sendOk : Nat → Bool) :
    Nat → Nat → List Effect × Term
  | 0, _ => ([], Term.fuelOut)
  | fuel + 1, i =>
      if sendOk i then
        let r := producerLoop ints sendOk fuel (i + 1)
        (Effect.send (toString (randint 0 1000000 (ints i))) :: r.1, r.2)
      else ([], Term.disconnected)

/-- Handler `producer`: connect, then the send loop. -/
def producer (ints : Nat → Nat) (sendOk : Nat → Bool) (fuel : Nat) :
    List Effect × Term :=
  let r := producerLoop ints sendOk fuel 0
  (Effect.connect :: r.1, r.2)

/-- The record `producer_of_json` sends: `random.randint(0, 1000000)` plus the
four uuid strings (uuid generation is injected as string streams). -/
def jsonRecord (n : Nat) (a b c d : String) : Json :=
  Json.obj [("int", Json.num (n : Int)), ("uuid1", Json.str a),
    ("uuid3", Json.str b), ("uuid4", Json.str c), ("uuid5", Json.str d)]

/-- The `while True` loop of `producer_of_json`: send the JSON record, then
`asyncio.sleep(0.0)`, and loop. -/
def producerJsonLoop (ints : Nat → Nat) (u1 u3 u4 u5 : Nat → String)
    (sendOk : Nat → Bool) : Nat → Nat → List Effect × Term
  | 0, _ => ([], Term.fuelOut)
  | fuel + 1, i =>
      if sendOk i then
        let r := producerJsonLoop ints u1 u3 u4 u5 sendOk fuel (i + 1)
        (Effect.sendJson
            (jsonRecord (randint 0 1000000 (ints i)) (u1 i) (u3 i) (u4 i) (u5 i))
          :: Effect.sleep 0 :: r.1, r.2)
      else ([], Term.disconnected)

/-- Handler `producer_of_json`: connect, then the JSON send loop. -/
def producer_of_json (ints : Nat → Nat) (u1 u3 u4 u5 : Nat → String)
    (sendOk : Nat → Bool) (fuel : Nat) : List Effect × Term :=
  let r := producerJsonLoop ints u1 u3 u4 u5 sendOk fuel 0
  (Effect.connect :: r.1, r.2)

/-- The `while True` loop of `timer`: send the current ISO timestamp (injected
as a string stream), then `asyncio.sleep(1.0)`, and loop. -/
def timerLoop (now : Nat → String) (sendOk : Nat → Bool) :
    Nat → Nat → List Effect × Term
  | 0, _ => ([], Term.fuelOut)
  | fuel + 1, i =>
      if sendOk i then
        let r := timerLoop now sendOk fuel (i + 1)
        (Effect.send (now i) :: Effect.sleep 1 :: r.1, r.2)
      else ([], Term.disconnected)

/-- Handler `timer`: connect, then the timestamp loop. -/
def timer (now : Nat → String) (sendOk : Nat → Bool) (fuel : Nat) :
    List Effect × Term :=
  let r := timerLoop now sendOk fuel 0
  (Effect.connect :: r.1, r.2)

/-- The upstream search URL
`"https://api.duckduckgo.com/?q={}&format=json".format(topic + salt)`. -/
def duckUrl (q : String) : String :=
  "https://api.duckduckgo.com/?q=" ++ q ++ "&format=json"

/-- `result.get("RelatedTopics", [])`: the list iterated by the inner `for`
loop of `search_subscribe` (a missing key, or a value that is not a JSON
array, yields nothing to iterate). -/
def relatedTopics : Json → List Json
  | Json.obj fields =>
      match fields.lookup "RelatedTopics" with
      | some (Json.arr items) => items
      | _ => []
  | _ => []

/-- The related-items of one upstream response (an HTTP error never reaches
the `for` loop). -/
def respItems : UpstreamResp → List Json
  | UpstreamResp.ok body => relatedTopics body
  | UpstreamResp.httpError _ => []

/-- The inner `for related_topic in ...` loop of `search_subscribe`: send each
item as JSON, then sleep `random.uniform(1.0, 5.0)`.  The boolean records
whether the loop completed (no disconnect at a send). -/
def subSendItems (sendOk : Nat → Bool) (unit : Nat → Rat) :
    List Json → Nat → List Effect × Bool
  | [], _ => ([], true)
  | item :: rest, j =>
      if sendOk j then
        let r := subSendItems sendOk unit rest (j + 1)
        (Effect.sendJson item :: Effect.sleep (pyUniform 1 5 (unit j)) :: r.1, r.2)
      else ([], false)

/-- The outer `while True` loop of `search_subscribe`: GET the search URL for
`topic + salt`; `raise_for_status()` makes an HTTP error propagate out of the
handler; otherwise iterate the related-items, then set
`salt = " " + random.choice(TOPICS)` and loop. -/
def searchLoop (topic : String) (upstream : Nat → UpstreamResp)
    (choice : Nat → Nat) (unit : Nat → Nat → Rat) (sendOk : Nat → Nat → Bool) :
    Nat → Nat → String → List Effect × Term
  | 0, _, _ => ([], Term.fuelOut)
  | fuel + 1, i, salt =>
      let url := duckUrl (topic ++ salt)
      match upstream i with
      | UpstreamResp.httpError c => ([Effect.httpGet url], Term.upstreamFault c)
      | UpstreamResp.ok body =>
          let inner := subSendItems (sendOk i) (unit i) (relatedTopics body) 0
          if inner.2 then
            let r := searchLoop topic upstream choice unit sendOk fuel (i + 1)
              (" " ++ pyChoice TOPICS (choice i))
            (Effect.httpGet url :: inner.1 ++ r.1, r.2)
          else (Effect.httpGet url :: inner.1, Term.disconnected)

/-- Handler `search_subscribe`: when the topic is not in the allow-list,
complete the handshake and immediately close with `WS_1007_INALID_DATA`
(`ws.connect(close=True, close_code=...)`) and return; otherwise connect and
run the search loop starting from an empty salt. -/
def search_subscribe (topic : String) (upstream : Nat → UpstreamResp)
    (choice : Nat → Nat) (unit : Nat → Nat → Rat) (sendOk : Nat → Nat → Bool)
    (fuel : Nat) : List Effect × Term :=
  if topic ∉ TOPICS then
    ([Effect.connectAndClose WS_1007_INALID_DATA], Term.returned)
  else
    let r := searchLoop topic upstream choice unit sendOk fuel 0 ""
    (Effect.connect :: r.1, r.2)

/-- The salt carried by the `i`-th upstream query of `search_subscribe`
(starting from `i = 0`): empty for the first query, and thereafter a single
space-plus-random-topic term chosen at the end of the previous iteration. -/
def saltSeq (choice : Nat → Nat) : Nat → String
  | 0 => ""
  | i + 1 => " " ++ pyChoice TOPICS (choice i)

/-- `CRYPTO_URL.format(fsym=...)` from `service/handlers.py`. -/
def CRYPTO_URL (fsym : String) : String :=
  "https://min-api.cryptocompare.com/data/price?fsym=" ++ fsym ++ "&tsyms=USD,EUR"

/-- The shared `while True` loop of `crypto_price` and `crypto_price_managed`:
GET the url; `raise_for_status()` makes an HTTP error propagate out of the
handler; otherwise forward the JSON body with `ws.send_json` and
`asyncio.sleep(1.5)`. -/
def cryptoLoop (url : String) (upstream : Nat → UpstreamResp)
    (sendOk : Nat → Bool) : Nat → Nat → List Effect × Term
  | 0, _ => ([], Term.fuelOut)
  | fuel + 1, i =>
      match upstream i with
      | UpstreamResp.httpError c => ([Effect.httpGet url], Term.upstreamFault c)
      | UpstreamResp.ok body =>
          if sendOk i then
            let r := cryptoLoop url upstream sendOk fuel (i + 1)
            (Effect.httpGet url :: Effect.sendJson body
              :: Effect.sleep (3 / 2) :: r.1, r.2)
          else ([Effect.httpGet url], Term.disconnected)

/-- Handler `crypto_price`: build the url from `sym.upper()`, connect
explicitly, then run the proxy loop. -/
def crypto_price (sym : String) (upstream : Nat → UpstreamResp)
    (sendOk : Nat → Bool) (fuel : Nat) : List Effect × Term :=
  let r := cryptoLoop (CRYPTO_URL (pyUpper sym)) upstream sendOk fuel 0
  (Effect.connect :: r.1, r.2)

/-- Handler `crypto_price_managed`: identical loop, but the handler never
performs the connect handshake itself. -/
def crypto_price_managed (sym : String) (upstream : Nat → UpstreamResp)
    (sendOk : Nat → Bool) (fuel : Nat) : List Effect × Term :=
  cryptoLoop (CRYPTO_URL (pyUpper sym)) upstream sendOk fuel 0

/-- `WebSocketEvents.on_request`: before dispatch, connect the session exactly
when the inbound path starts with the managed-proxy path start
`"/crypto/price/managed/"`. -/
def on_request (path : String) : List Effect :=
  if pyStartswith path "/crypto/price/managed/" then [Effect.connect] else []

/-- Is the effect an upstream HTTP request. -/
def isGet : Effect → Bool
  | Effect.httpGet _ => true
  | _ => false

/-- Is the effect a pacing sleep. -/
def isSleepEffect : Effect → Bool
  | Effect.sleep _ => true
  | _ => false

/-- The upstream request URLs of a trace, in order. -/
def getUrls (t : List Effect) : List String :=
  t.filterMap fun e => match e with | Effect.httpGet u => some u | _ => none

/-- Field lookup on a JSON object. -/
def lookupField : Json → String → Option Json
  | Json.obj fields, k => fields.lookup k
  | _, _ => none

/-- Written from the claim text of C9: the object has a numeric field `key`
whose value lies between 0 and 1000000 inclusive. -/
def hasIntField (j : Json) (key : String) : Prop :=
  ∃ n : Int, lookupField j key = some (Json.num n) ∧ 0 ≤ n ∧ n ≤ 1000000

/-- Written from the claim text of C9: the object has a string field `key`. -/
def hasStrField (j : Json) (key : String) : Prop :=
  ∃ s : String, lookupField j key = some (Json.str s)

/-- Written from the claim text of C8: the trace discipline of the
topic-subscribe handler.  The state is the index of the next upstream query
and the not-yet-sent suffix of the most recent query's related-items; every
JSON message sent must be the next item, in list order, of that suffix, and
every pacing sleep must lie in the range 1 to 5 seconds. -/
inductive SubDiscipline (upstream : Nat → UpstreamResp) :
    List Effect → Nat → List Json → Prop
  | nil (i : Nat) (pend : List Json) : SubDiscipline upstream [] i pend
  | conn (rest : List Effect) (i : Nat) (pend : List Json) :
      SubDiscipline upstream rest i pend →
      SubDiscipline upstream (Effect.connect :: rest) i pend
  | query (u : String) (rest : List Effect) (i : Nat) (pend : List Json) :
      SubDiscipline upstream rest (i + 1) (respItems (upstream i)) →
      SubDiscipline upstream (Effect.httpGet u :: rest) i pend
  | send (p : Json) (ps : List Json) (rest : List Effect) (i : Nat) :
      SubDiscipline upstream rest i ps →
      SubDiscipline upstream (Effect.sendJson p :: rest) i (p :: ps)
  | pace (d : Rat) (rest : List Effect) (i : Nat) (pend : List Json) :
      1 ≤ d → d ≤ 5 →
      SubDiscipline upstream rest i pend →
      SubDiscipline upstream (Effect.sleep d :: rest) i pend

end WS

namespace WS

theorem pingPongLoop_pings (x : String) (hx : x ≠ "ping") :
    ∀ (n fuel : Nat), n + 1 ≤ fuel → ∀ (rest : List RecvResult),
    pingPongLoop fuel (List.replicate n (RecvResult.msg "ping") ++
        RecvResult.msg x :: rest) =
      (List.replicate n (Effect.send "pong") ++ [Effect.close WS_1002_PROT_ERROR],
        Term.returned) := by
  intro n
  induction n with
  | zero =>
      intro fuel hf rest
      match fuel, hf with
      | f + 1, _ =>
        simp [pingPongLoop, hx]
  | succ k ih =>
      intro fuel hf rest
      match fuel, hf with
      | f + 1, hf =>
        have hk : k + 1 ≤ f := Nat.lt_succ_iff.mp hf
        simp only [List.replicate_succ, List.cons_append, pingPongLoop,
          ne_eq, not_true_eq_false, if_false]
        rw [List.append_eq, ih f hk rest]

/-- C1: for `N` consecutive "ping" frames followed by a first non-"ping"
frame, `ping_pong` sends exactly `N` "pong" replies in order (one per ping),
then closes with protocol-error code 1002, sends nothing further, and
returns. -/
theorem ping_pong_c1 (n : Nat) (x : String) (hx : x ≠ "ping")
    (fuel : Nat) (hf : n + 1 ≤ fuel) (rest : List RecvResult) :
    ping_pong fuel (List.replicate n (RecvResult.msg "ping") ++
        RecvResult.msg x :: rest) =
      (Effect.connect :: List.replicate n (Effect.send "pong") ++
        [Effect.close WS_1002_PROT_ERROR], Term.returned) := by
  have h := pingPongLoop_pings x hx n fuel hf rest
  simp [ping_pong, h]

/-- Witness for C1 at `n = 2`, `x = "pingx"`, `fuel = 3`. -/
theorem ping_pong_c1_witness :
    ("pingx" ≠ "ping") ∧
    ping_pong 3 [RecvResult.msg "ping", RecvResult.msg "ping",
        RecvResult.msg "pingx"] =
      (Effect.connect :: List.replicate 2 (Effect.send "pong") ++
        [Effect.close WS_1002_PROT_ERROR], Term.returned) :=
  ⟨by decide, ping_pong_c1 2 "pingx" (by decide) 3 (by decide) []⟩

/-- C3: for a topic outside the allow-list, `search_subscribe` completes the
handshake, closes with invalid-data code 1007, and returns; the whole trace is
that single effect, so zero data messages are sent and no upstream request is
issued. -/
theorem search_subscribe_c3 (topic : String) (h : topic ∉ TOPICS)
    (upstream : Nat → UpstreamResp) (choice : Nat → Nat) (unit : Nat → Nat → Rat)
    (sendOk : Nat → Nat → Bool) (fuel : Nat) :
    search_subscribe topic upstream choice unit sendOk fuel =
      ([Effect.connectAndClose WS_1007_INALID_DATA], Term.returned) := by
  simp [search_subscribe, h]

/-- Witness for C3 at topic "nope". -/
theorem search_subscribe_c3_witness :
    ("nope" ∉ TOPICS) ∧
    search_subscribe "nope" (fun _ => UpstreamResp.httpError 500) (fun _ => 0)
        (fun _ _ => 0) (fun _ _ => true) 5 =
      ([Effect.connectAndClose WS_1007_INALID_DATA], Term.returned) :=
  ⟨by decide, search_subscribe_c3 "nope" (by decide) _ _ _ _ 5⟩

/-- C10: both crypto proxies normalize the symbol with `sym.upper()`, so two
symbols equal up to ASCII case yield the same upstream URL and, over the same
upstream responses and connection behaviour, identical runs. -/
theorem crypto_case_c10 (s1 s2 : String) (upstream : Nat → UpstreamResp)
    (sendOk : Nat → Bool) (fuel : Nat) (h : pyUpper s1 = pyUpper s2) :
    CRYPTO_URL (pyUpper s1) = CRYPTO_URL (pyUpper s2) ∧
    crypto_price s1 upstream sendOk fuel = crypto_price s2 upstream sendOk fuel ∧
    crypto_price_managed s1 upstream sendOk fuel =
      crypto_price_managed s2 upstream sendOk fuel := by
  refine ⟨?_, ?_, ?_⟩ <;>
    simp [CRYPTO_URL, crypto_price, crypto_price_managed, h]

/-- Witness for C10 at "btc" and "BTC". -/
theorem crypto_case_c10_witness :
    pyUpper "btc" = pyUpper "BTC" ∧
    (CRYPTO_URL (pyUpper "btc") = CRYPTO_URL (pyUpper "BTC") ∧
      crypto_price "btc" (fun _ => UpstreamResp.ok (Json.num 7)) (fun _ => true) 2 =
        crypto_price "BTC" (fun _ => UpstreamResp.ok (Json.num 7)) (fun _ => true) 2 ∧
      crypto_price_managed "btc" (fun _ => UpstreamResp.ok (Json.num 7)) (fun _ => true) 2 =
        crypto_price_managed "BTC" (fun _ => UpstreamResp.ok (Json.num 7)) (fun _ => true) 2) :=
  ⟨by decide, crypto_case_c10 "btc" "BTC" _ _ 2 (by decide)⟩

theorem isPrefixOf_append_self (l t : List Char) : l.isPrefixOf (l ++ t) = true := by
  induction l with
  | nil => cases t <;> rfl
  | cons a as ih => simp [List.isPrefixOf, ih]

theorem pyStartswith_managed (sym : String) :
    pyStartswith ("/crypto/price/managed/" ++ sym) "/crypto/price/managed/" = true := by
  have h : ("/crypto/price/managed/" ++ sym).data =
      "/crypto/price/managed/".data ++ sym.data := rfl
  simp [pyStartswith, h, isPrefixOf_append_self]

theorem connect_not_mem_cryptoLoop (url : String) (upstream : Nat → UpstreamResp)
    (sendOk : Nat → Bool) :
    ∀ (fuel i : Nat), Effect.connect ∉ (cryptoLoop url upstream sendOk fuel i).1 := by
  intro fuel
  induction fuel with
  | zero => intro i; simp [cryptoLoop]
  | succ f ih =>
      intro i
      cases h : upstream i with
      | httpError c => simp [cryptoLoop, h]
      | ok body =>
          cases hs : sendOk i with
          | true => simp [cryptoLoop, h, hs, ih (i + 1)]
          | false => simp [cryptoLoop, h, hs]

/-- C4: the managed crypto proxy behaves identically to the unmanaged one
except that it never performs the connect handshake itself: prepending the
Connection Lifecycle Hook's effects for the managed route's path to the
managed handler's trace gives exactly the unmanaged handler's trace (same
termination), the managed handler itself performs no connect, and the hook
connects exactly for paths starting with "/crypto/price/managed/". -/
theorem crypto_managed_c4 (sym : String) (upstream : Nat → UpstreamResp)
    (sendOk : Nat → Bool) (fuel : Nat) :
    on_request ("/crypto/price/managed/" ++ sym) ++
        (crypto_price_managed sym upstream sendOk fuel).1 =
      (crypto_price sym upstream sendOk fuel).1 ∧
    (crypto_price_managed sym upstream sendOk fuel).2 =
      (crypto_price sym upstream sendOk fuel).2 ∧
    Effect.connect ∉ (crypto_price_managed sym upstream sendOk fuel).1 ∧
    (∀ path : String,
      on_request path = [Effect.connect] ↔
        pyStartswith path "/crypto/price/managed/" = true) := by
  refine ⟨?_, ?_, ?_, ?_⟩
  · simp [on_request, pyStartswith_managed, crypto_price, crypto_price_managed]
  · simp [crypto_price, crypto_price_managed]
  · exact connect_not_mem_cryptoLoop _ upstream sendOk fuel 0
  · intro path
    by_cases hp : pyStartswith path "/crypto/price/managed/" = true
    · simp [on_request, hp]
    · simp [on_request, hp]

/-- Witness for C4 at symbol "btc": the hook plus the managed handler
reproduce the unmanaged handler's trace. -/
theorem crypto_managed_c4_witness :
    on_request ("/crypto/price/managed/" ++ "btc") ++
        (crypto_price_managed "btc" (fun _ => UpstreamResp.ok (Json.num 2))
          (fun _ => true) 1).1 =
      (crypto_price "btc" (fun _ => UpstreamResp.ok (Json.num 2))
        (fun _ => true) 1).1 :=
  (crypto_managed_c4 "btc" (fun _ => UpstreamResp.ok (Json.num 2))
    (fun _ => true) 1).1

theorem producerLoop_allOk (ints : Nat → Nat) :
    ∀ (fuel i : Nat), producerLoop ints (fun _ => true) fuel i =
      ((List.range' i fuel).map
          (fun j => Effect.send (toString (randint 0 1000000 (ints j)))),
        Term.fuelOut) := by
  intro fuel
  induction fuel with
  | zero => intro i; simp [producerLoop, List.range']
  | succ f ih => intro i; simp [producerLoop, List.range', ih (i + 1)]

theorem producerJsonLoop_allOk (ints : Nat → Nat) (u1 u3 u4 u5 : Nat → String) :
    ∀ (fuel i : Nat), producerJsonLoop ints u1 u3 u4 u5 (fun _ => true) fuel i =
      (((List.range' i fuel).map (fun j =>
          [Effect.sendJson
              (jsonRecord (randint 0 1000000 (ints j)) (u1 j) (u3 j) (u4 j) (u5 j)),
            Effect.sleep 0])).flatten,
        Term.fuelOut) := by
  intro fuel
  induction fuel with
  | zero => intro i; simp [producerJsonLoop, List.range']
  | succ f ih => intro i; simp [producerJsonLoop, List.range', ih (i + 1)]

/-- C7 (amended): on every iteration the plain producer generates a
pseudo-random integer payload and sends it with NO pacing delay at all (its
trace is the connect followed by sends only, and contains no sleep), while the
JSON producer follows each send with a zero-duration `asyncio.sleep(0.0)`
yield rather than a short fixed delay. -/
theorem producer_pacing_c7 (ints : Nat → Nat) (u1 u3 u4 u5 : Nat → String)
    (fuel : Nat) :
    (producer ints (fun _ => true) fuel).1 =
      Effect.connect :: (List.range fuel).map
        (fun j => Effect.send (toString (randint 0 1000000 (ints j)))) ∧
    (producer ints (fun _ => true) fuel).1.filter isSleepEffect = [] ∧
    (producer_of_json ints u1 u3 u4 u5 (fun _ => true) fuel).1 =
      Effect.connect :: ((List.range fuel).map (fun j =>
        [Effect.sendJson
            (jsonRecord (randint 0 1000000 (ints j)) (u1 j) (u3 j) (u4 j) (u5 j)),
          Effect.sleep 0])).flatten := by
  have h1 := producerLoop_allOk ints fuel 0
  have h2 := producerJsonLoop_allOk ints u1 u3 u4 u5 fuel 0
  refine ⟨?_, ?_, ?_⟩
  · simp [producer, h1, List.range_eq_range']
  · simp only [producer, h1]
    rw [List.filter_eq_nil_iff]
    intro a ha
    rcases List.mem_cons.mp ha with h | h
    · subst h; simp [isSleepEffect]
    · rcases List.mem_map.mp h with ⟨j, _, hj⟩
      subst hj; simp [isSleepEffect]
  · simp [producer_of_json, h2, List.range_eq_range']

/-- Witness for C7 (amended): a two-iteration all-ok run of the plain
producer. -/
theorem producer_pacing_c7_witness :
    (producer (fun _ => 5) (fun _ => true) 2).1 =
      Effect.connect :: (List.range 2).map
        (fun j => Effect.send (toString (randint 0 1000000 ((fun _ => 5) j)))) :=
  (producer_pacing_c7 (fun _ => 5) (fun _ => "a") (fun _ => "b") (fun _ => "c")
    (fun _ => "d") 2).1

/-- Counterexample to C7 as stated: a three-iteration run of the plain
producer performs three sends and not a single sleep; no iteration includes a
pacing delay. -/
theorem producer_pacing_c7_counterexample :
    (producer (fun _ => 0) (fun _ => true) 3).1 =
      [Effect.connect, Effect.send "0", Effect.send "0", Effect.send "0"] ∧
    (producer (fun _ => 0) (fun _ => true) 3).1.filter isSleepEffect = [] :=
  ⟨rfl, rfl⟩

theorem pingPongLoop_disconnect :
    ∀ (k fuel : Nat), k + 1 ≤ fuel → ∀ (rest : List RecvResult),
    pingPongLoop fuel
        (List.replicate k (RecvResult.msg "ping") ++ RecvResult.disconnect :: rest) =
      (List.replicate k (Effect.send "pong"), Term.returned) := by
  intro k
  induction k with
  | zero =>
      intro fuel hf rest
      match fuel, hf with
      | f + 1, _ => simp [pingPongLoop]
  | succ k ih =>
      intro fuel hf rest
      match fuel, hf with
      | f + 1, hf =>
        have hk : k + 1 ≤ f := Nat.lt_succ_iff.mp hf
        simp only [List.replicate_succ, List.cons_append, pingPongLoop,
          ne_eq, not_true_eq_false, if_false]
        rw [List.append_eq, ih f hk rest]

theorem consumerLoop_disconnect :
    ∀ (ms : List String) (fuel : Nat), ms.length + 1 ≤ fuel →
    ∀ (rest : List RecvResult),
    consumerLoop fuel (ms.map RecvResult.msg ++ RecvResult.disconnect :: rest) =
      ([], Term.disconnected) := by
  intro ms
  induction ms with
  | nil =>
      intro fuel hf rest
      match fuel, hf with
      | f + 1, _ => simp [consumerLoop]
  | cons m ms ih =>
      intro fuel hf rest
      match fuel, hf with
      | f + 1, hf =>
        have hk : ms.length + 1 ≤ f := Nat.lt_succ_iff.mp (by simpa using hf)
        simp only [List.map_cons, List.cons_append, consumerLoop]
        rw [List.append_eq, ih f hk rest]

theorem consumerJsonLoop_disconnect :
    ∀ (js : List Json) (fuel : Nat), js.length + 1 ≤ fuel →
    ∀ (rest : List JRecvResult),
    consumerJsonLoop fuel (js.map JRecvResult.jmsg ++ JRecvResult.disconnect :: rest) =
      ([], Term.disconnected) := by
  intro js
  induction js with
  | nil =>
      intro fuel hf rest
      match fuel, hf with
      | f + 1, _ => simp [consumerJsonLoop]
  | cons j js ih =>
      intro fuel hf rest
      match fuel, hf with
      | f + 1, hf =>
        have hk : js.length + 1 ≤ f := Nat.lt_succ_iff.mp (by simpa using hf)
        simp only [List.map_cons, List.cons_append, consumerJsonLoop]
        rw [List.append_eq, ih f hk rest]

theorem producerLoop_disc (ints : Nat → Nat) (K : Nat) :
    ∀ (fuel i : Nat), i ≤ K → K < i + fuel →
    (producerLoop ints (fun j => decide (j < K)) fuel i).2 = Term.disconnected := by
  intro fuel
  induction fuel with
  | zero => intro i h1 h2; omega
  | succ f ih =>
      intro i h1 h2
      rcases Nat.lt_or_eq_of_le h1 with hlt | heq
      · have hr := ih (i + 1) hlt (by omega)
        simp [producerLoop, hlt, hr]
      · subst heq
        simp [producerLoop]

theorem producerJsonLoop_disc (ints : Nat → Nat) (u1 u3 u4 u5 : Nat → String)
    (K : Nat) :
    ∀ (fuel i : Nat), i ≤ K → K < i + fuel →
    (producerJsonLoop ints u1 u3 u4 u5 (fun j => decide (j < K)) fuel i).2 =
      Term.disconnected := by
  intro fuel
  induction fuel with
  | zero => intro i h1 h2; omega
  | succ f ih =>
      intro i h1 h2
      rcases Nat.lt_or_eq_of_le h1 with hlt | heq
      · have hr := ih (i + 1) hlt (by omega)
        simp [producerJsonLoop, hlt, hr]
      · subst heq
        simp [producerJsonLoop]

theorem timerLoop_disc (now : Nat → String) (K : Nat) :
    ∀ (fuel i : Nat), i ≤ K → K < i + fuel →
    (timerLoop now (fun j => decide (j < K)) fuel i).2 = Term.disconnected := by
  intro fuel
  induction fuel with
  | zero => intro i h1 h2; omega
  | succ f ih =>
      intro i h1 h2
      rcases Nat.lt_or_eq_of_le h1 with hlt | heq
      · have hr := ih (i + 1) hlt (by omega)
        simp [timerLoop, hlt, hr]
      · subst heq
        simp [timerLoop]

theorem cryptoLoop_disc (url : String) (bodies : Nat → Json) (K : Nat) :
    ∀ (fuel i : Nat), i ≤ K → K < i + fuel →
    (cryptoLoop url (fun j => UpstreamResp.ok (bodies j))
        (fun j => decide (j < K)) fuel i).2 = Term.disconnected := by
  intro fuel
  induction fuel with
  | zero => intro i h1 h2; omega
  | succ f ih =>
      intro i h1 h2
      rcases Nat.lt_or_eq_of_le h1 with hlt | heq
      · have hr := ih (i + 1) hlt (by omega)
        simp [cryptoLoop, hlt, hr]
      · subst heq
        simp [cryptoLoop]

theorem subSendItems_allOk (un : Nat → Rat) :
    ∀ (items : List Json) (j : Nat),
    (subSendItems (fun _ => true) un items j).2 = true := by
  intro items
  induction items with
  | nil => intro j; rfl
  | cons a l ih => intro j; simp [subSendItems, ih (j + 1)]

theorem searchLoop_disc (topic : String) (bodies : Nat → Json) (ch : Nat → Nat)
    (un : Nat → Nat → Rat) (K : Nat) (hne : relatedTopics (bodies K) ≠ []) :
    ∀ (fuel i : Nat) (salt : String), i ≤ K → K < i + fuel →
    (searchLoop topic (fun j => UpstreamResp.ok (bodies j)) ch un
        (fun a _ => decide (a < K)) fuel i salt).2 = Term.disconnected := by
  intro fuel
  induction fuel with
  | zero => intro i salt h1 h2; omega
  | succ f ih =>
      intro i salt h1 h2
      rcases Nat.lt_or_eq_of_le h1 with hlt | heq
      · have hr := ih (i + 1) (" " ++ pyChoice TOPICS (ch i)) hlt (by omega)
        simp only [searchLoop, hlt, decide_True]
        rw [subSendItems_allOk]
        simp [hr]
      · subst heq
        obtain ⟨a, l, hal⟩ := List.exists_cons_of_ne_nil hne
        simp [searchLoop, hal, subSendItems]

/-- C2 (amended): a peer disconnect observed at a blocking receive or send
inside the loop terminates every looping handler's loop, but only `ping_pong`
catches `WebSocketDisconnect` and returns cleanly; in all other looping
handlers (consumer, json-consumer, producer, json-producer, timer,
topic-subscribe, both crypto proxies) the `WebSocketDisconnect` signal
propagates out of the handler uncaught, to be absorbed by the framework. -/
theorem disconnect_c2 :
    (∀ (k fuel : Nat) (rest : List RecvResult), k + 1 ≤ fuel →
      (ping_pong fuel (List.replicate k (RecvResult.msg "ping") ++
          RecvResult.disconnect :: rest)).2 = Term.returned) ∧
    (∀ (ms : List String) (fuel : Nat) (rest : List RecvResult),
      ms.length + 1 ≤ fuel →
      (consumer fuel (ms.map RecvResult.msg ++ RecvResult.disconnect :: rest)).2 =
        Term.disconnected) ∧
    (∀ (js : List Json) (fuel : Nat) (rest : List JRecvResult),
      js.length + 1 ≤ fuel →
      (consumer_of_json fuel (js.map JRecvResult.jmsg ++
          JRecvResult.disconnect :: rest)).2 = Term.disconnected) ∧
    (∀ (ints : Nat → Nat) (K fuel : Nat), K < fuel →
      (producer ints (fun j => decide (j < K)) fuel).2 = Term.disconnected) ∧
    (∀ (ints : Nat → Nat) (u1 u3 u4 u5 : Nat → String) (K fuel : Nat), K < fuel →
      (producer_of_json ints u1 u3 u4 u5 (fun j => decide (j < K)) fuel).2 =
        Term.disconnected) ∧
    (∀ (now : Nat → String) (K fuel : Nat), K < fuel →
      (timer now (fun j => decide (j < K)) fuel).2 = Term.disconnected) ∧
    (∀ (sym : String) (bodies : Nat → Json) (K fuel : Nat), K < fuel →
      (crypto_price sym (fun j => UpstreamResp.ok (bodies j))
          (fun j => decide (j < K)) fuel).2 = Term.disconnected) ∧
    (∀ (sym : String) (bodies : Nat → Json) (K fuel : Nat), K < fuel →
      (crypto_price_managed sym (fun j => UpstreamResp.ok (bodies j))
          (fun j => decide (j < K)) fuel).2 = Term.disconnected) ∧
    (∀ (topic : String) (bodies : Nat → Json) (ch : Nat → Nat)
        (un : Nat → Nat → Rat) (K fuel : Nat),
      topic ∈ TOPICS → relatedTopics (bodies K) ≠ [] → K < fuel →
      (search_subscribe topic (fun j => UpstreamResp.ok (bodies j)) ch un
          (fun a _ => decide (a < K)) fuel).2 = Term.disconnected) := by
  refine ⟨?_, ?_, ?_, ?_, ?_, ?_, ?_, ?_, ?_⟩
  · intro k fuel rest hf
    simp [ping_pong, pingPongLoop_disconnect k fuel hf rest]
  · intro ms fuel rest hf
    simp [consumer, consumerLoop_disconnect ms fuel hf rest]
  · intro js fuel rest hf
    simp [consumer_of_json, consumerJsonLoop_disconnect js fuel hf rest]
  · intro ints K fuel hf
    simp [producer, producerLoop_disc ints K fuel 0 (Nat.zero_le K) (by omega)]
  · intro ints u1 u3 u4 u5 K fuel hf
    simp [producer_of_json,
      producerJsonLoop_disc ints u1 u3 u4 u5 K fuel 0 (Nat.zero_le K) (by omega)]
  · intro now K fuel hf
    simp [timer, timerLoop_disc now K fuel 0 (Nat.zero_le K) (by omega)]
  · intro sym bodies K fuel hf
    simp [crypto_price, cryptoLoop_disc _ bodies K fuel 0 (Nat.zero_le K) (by omega)]
  · intro sym bodies K fuel hf
    simp [crypto_price_managed,
      cryptoLoop_disc _ bodies K fuel 0 (Nat.zero_le K) (by omega)]
  · intro topic bodies ch un K fuel ht hne hf
    simp [search_subscribe, ht,
      searchLoop_disc topic bodies ch un K hne fuel 0 "" (Nat.zero_le K) (by omega)]

/-- Counterexample to C2 as stated: the consumer handler, on a peer disconnect
at its first blocking receive, ends with the `WebSocketDisconnect` signal
propagating out of the handler uncaught, not with a clean return. -/
theorem disconnect_c2_counterexample :
    consumer 1 [RecvResult.disconnect] = ([Effect.connect], Term.disconnected) ∧
    Term.disconnected ≠ Term.returned :=
  ⟨rfl, by decide⟩

/-- Witness for C2 (amended), one concrete instance per looping handler. -/
theorem disconnect_c2_witness :
    (ping_pong 2 (List.replicate 1 (RecvResult.msg "ping") ++
        RecvResult.disconnect :: [])).2 = Term.returned ∧
    (consumer 1 (([] : List String).map RecvResult.msg ++
        RecvResult.disconnect :: [])).2 = Term.disconnected ∧
    (consumer_of_json 1 (([] : List Json).map JRecvResult.jmsg ++
        JRecvResult.disconnect :: [])).2 = Term.disconnected ∧
    (producer (fun _ => 0) (fun j => decide (j < 1)) 2).2 = Term.disconnected ∧
    (producer_of_json (fun _ => 0) (fun _ => "a") (fun _ => "b") (fun _ => "c")
        (fun _ => "d") (fun j => decide (j < 1)) 2).2 = Term.disconnected ∧
    (timer (fun _ => "t") (fun j => decide (j < 1)) 2).2 = Term.disconnected ∧
    (crypto_price "btc" (fun _ => UpstreamResp.ok (Json.num 1))
        (fun j => decide (j < 1)) 2).2 = Term.disconnected ∧
    (crypto_price_managed "btc" (fun _ => UpstreamResp.ok (Json.num 1))
        (fun j => decide (j < 1)) 2).2 = Term.disconnected ∧
    (search_subscribe "games"
        (fun _ => UpstreamResp.ok (Json.obj [("RelatedTopics", Json.arr [Json.num 1])]))
        (fun _ => 0) (fun _ _ => 0) (fun a _ => decide (a < 0)) 1).2 =
      Term.disconnected := by
  obtain ⟨h1, h2, h3, h4, h5, h6, h7, h8, h9⟩ := disconnect_c2
  exact ⟨h1 1 2 [] (by decide), h2 [] 1 [] (by decide), h3 [] 1 [] (by decide),
    h4 (fun _ => 0) 1 2 (by decide),
    h5 (fun _ => 0) (fun _ => "a") (fun _ => "b") (fun _ => "c") (fun _ => "d") 1 2 (by decide),
    h6 (fun _ => "t") 1 2 (by decide),
    h7 "btc" (fun _ => Json.num 1) 1 2 (by decide),
    h8 "btc" (fun _ => Json.num 1) 1 2 (by decide),
    h9 "games" (fun _ => Json.obj [("RelatedTopics", Json.arr [Json.num 1])])
      (fun _ => 0) (fun _ _ => 0) 0 1 (by decide)
      (List.cons_ne_nil _ _) (by decide)⟩

theorem cryptoLoop_fault (url : String) (upstream : Nat → UpstreamResp)
    (bodies : Nat → Json) (c : Nat) :
    ∀ (K fuel i : Nat),
    (∀ j, j < K → upstream (i + j) = UpstreamResp.ok (bodies (i + j))) →
    upstream (i + K) = UpstreamResp.httpError c →
    K < fuel →
    (cryptoLoop url upstream (fun _ => true) fuel i).2 = Term.upstreamFault c ∧
    ((cryptoLoop url upstream (fun _ => true) fuel i).1.filter isGet).length =
      K + 1 := by
  intro K
  induction K with
  | zero =>
      intro fuel i hok herr hf
      match fuel, hf with
      | f + 1, _ =>
        have h0 : upstream i = UpstreamResp.httpError c := by simpa using herr
        simp [cryptoLoop, h0, isGet]
  | succ K ih =>
      intro fuel i hok herr hf
      match fuel, hf with
      | f + 1, hf =>
        have h0 : upstream i = UpstreamResp.ok (bodies i) := by
          simpa using hok 0 (Nat.succ_pos K)
        have hrec := ih f (i + 1)
          (fun j hj => by
            have := hok (j + 1) (by omega)
            rwa [show i + (j + 1) = i + 1 + j by omega] at this)
          (by rwa [show i + 1 + K = i + (K + 1) by omega])
          (by omega)
        simp [cryptoLoop, h0, isGet, hrec.1, hrec.2]

theorem subSendItems_no_get (so : Nat → Bool) (un : Nat → Rat) :
    ∀ (items : List Json) (j : Nat),
    (subSendItems so un items j).1.filter isGet = [] := by
  intro items
  induction items with
  | nil => intro j; rfl
  | cons a l ih =>
      intro j
      cases hs : so j with
      | true => simp [subSendItems, hs, isGet, ih (j + 1)]
      | false => simp [subSendItems, hs]

theorem searchLoop_fault (topic : String) (upstream : Nat → UpstreamResp)
    (bodies : Nat → Json) (ch : Nat → Nat) (un : Nat → Nat → Rat) (c : Nat) :
    ∀ (K fuel i : Nat) (salt : String),
    (∀ j, j < K → upstream (i + j) = UpstreamResp.ok (bodies (i + j))) →
    upstream (i + K) = UpstreamResp.httpError c →
    K < fuel →
    (searchLoop topic upstream ch un (fun _ _ => true) fuel i salt).2 =
      Term.upstreamFault c ∧
    ((searchLoop topic upstream ch un (fun _ _ => true) fuel i salt).1.filter
        isGet).length = K + 1 := by
  intro K
  induction K with
  | zero =>
      intro fuel i salt hok herr hf
      match fuel, hf with
      | f + 1, _ =>
        have h0 : upstream i = UpstreamResp.httpError c := by simpa using herr
        simp [searchLoop, h0, isGet]
  | succ K ih =>
      intro fuel i salt hok herr hf
      match fuel, hf with
      | f + 1, hf =>
        have h0 : upstream i = UpstreamResp.ok (bodies i) := by
          simpa using hok 0 (Nat.succ_pos K)
        have hrec := ih f (i + 1) (" " ++ pyChoice TOPICS (ch i))
          (fun j hj => by
            have := hok (j + 1) (by omega)
            rwa [show i + (j + 1) = i + 1 + j by omega] at this)
          (by rwa [show i + 1 + K = i + (K + 1) by omega])
          (by omega)
        rw [searchLoop]
        simp only [h0]
        rw [subSendItems_allOk]
        simp [List.filter_append, subSendItems_no_get, isGet, hrec.1, hrec.2]

/-- C5: for every handler that queries the upstream source, a failed upstream
request (`raise_for_status()` on a non-success status) is fatal for the
session loop: the run ends with the upstream fault propagating out, and the
failing request is the last one issued (exactly `K + 1` requests for a fault
at iteration `K` — it is not retried). -/
theorem upstream_fault_c5 :
    (∀ (sym : String) (upstream : Nat → UpstreamResp) (bodies : Nat → Json)
        (c K fuel : Nat),
      (∀ j, j < K → upstream j = UpstreamResp.ok (bodies j)) →
      upstream K = UpstreamResp.httpError c → K < fuel →
      (crypto_price sym upstream (fun _ => true) fuel).2 = Term.upstreamFault c ∧
      ((crypto_price sym upstream (fun _ => true) fuel).1.filter isGet).length =
        K + 1) ∧
    (∀ (sym : String) (upstream : Nat → UpstreamResp) (bodies : Nat → Json)
        (c K fuel : Nat),
      (∀ j, j < K → upstream j = UpstreamResp.ok (bodies j)) →
      upstream K = UpstreamResp.httpError c → K < fuel →
      (crypto_price_managed sym upstream (fun _ => true) fuel).2 =
        Term.upstreamFault c ∧
      ((crypto_price_managed sym upstream (fun _ => true) fuel).1.filter
          isGet).length = K + 1) ∧
    (∀ (topic : String) (upstream : Nat → UpstreamResp) (bodies : Nat → Json)
        (ch : Nat → Nat) (un : Nat → Nat → Rat) (c K fuel : Nat),
      topic ∈ TOPICS →
      (∀ j, j < K → upstream j = UpstreamResp.ok (bodies j)) →
      upstream K = UpstreamResp.httpError c → K < fuel →
      (search_subscribe topic upstream ch un (fun _ _ => true) fuel).2 =
        Term.upstreamFault c ∧
      ((search_subscribe topic upstream ch un (fun _ _ => true) fuel).1.filter
          isGet).length = K + 1) := by
  refine ⟨?_, ?_, ?_⟩
  · intro sym upstream bodies c K fuel hok herr hf
    have h := cryptoLoop_fault (CRYPTO_URL (pyUpper sym)) upstream bodies c K fuel 0
      (fun j hj => by simpa using hok j hj) (by simpa using herr) hf
    constructor
    · simpa [crypto_price] using h.1
    · simpa [crypto_price, isGet] using h.2
  · intro sym upstream bodies c K fuel hok herr hf
    have h := cryptoLoop_fault (CRYPTO_URL (pyUpper sym)) upstream bodies c K fuel 0
      (fun j hj => by simpa using hok j hj) (by simpa using herr) hf
    exact ⟨h.1, h.2⟩
  · intro topic upstream bodies ch un c K fuel ht hok herr hf
    have h := searchLoop_fault topic upstream bodies ch un c K fuel 0 ""
      (fun j hj => by simpa using hok j hj) (by simpa using herr) hf
    constructor
    · simpa [search_subscribe, ht] using h.1
    · simpa [search_subscribe, ht, isGet] using h.2

/-- Witness for C5: a fault on the very first upstream request, for all three
querying handlers. -/
theorem upstream_fault_c5_witness :
    ((crypto_price "btc" (fun _ => UpstreamResp.httpError 503) (fun _ => true) 1).2 =
        Term.upstreamFault 503 ∧
      ((crypto_price "btc" (fun _ => UpstreamResp.httpError 503)
          (fun _ => true) 1).1.filter isGet).length = 0 + 1) ∧
    ((crypto_price_managed "btc" (fun _ => UpstreamResp.httpError 503)
          (fun _ => true) 1).2 = Term.upstreamFault 503 ∧
      ((crypto_price_managed "btc" (fun _ => UpstreamResp.httpError 503)
          (fun _ => true) 1).1.filter isGet).length = 0 + 1) ∧
    ((search_subscribe "games" (fun _ => UpstreamResp.httpError 503)
          (fun _ => 0) (fun _ _ => 0) (fun _ _ => true) 1).2 =
        Term.upstreamFault 503 ∧
      ((search_subscribe "games" (fun _ => UpstreamResp.httpError 503)
          (fun _ => 0) (fun _ _ => 0) (fun _ _ => true) 1).1.filter
          isGet).length = 0 + 1) := by
  obtain ⟨h1, h2, h3⟩ := upstream_fault_c5
  exact ⟨h1 "btc" (fun _ => UpstreamResp.httpError 503) (fun _ => Json.num 0) 503 0 1
      (fun j hj => absurd hj (Nat.not_lt_zero j)) rfl (by decide),
    h2 "btc" (fun _ => UpstreamResp.httpError 503) (fun _ => Json.num 0) 503 0 1
      (fun j hj => absurd hj (Nat.not_lt_zero j)) rfl (by decide),
    h3 "games" (fun _ => UpstreamResp.httpError 503) (fun _ => Json.num 0)
      (fun _ => 0) (fun _ _ => 0) 503 0 1 (by decide)
      (fun j hj => absurd hj (Nat.not_lt_zero j)) rfl (by decide)⟩

theorem searchLoop_salts (topic : String) (ch : Nat → Nat) (un : Nat → Nat → Rat)
    (so : Nat → Nat → Bool) :
    ∀ (fuel i : Nat),
    searchLoop topic (fun _ => UpstreamResp.ok (Json.obj [])) ch un so fuel i
        (saltSeq ch i) =
      ((List.range' i fuel).map
          (fun j => Effect.httpGet (duckUrl (topic ++ saltSeq ch j))),
        Term.fuelOut) := by
  intro fuel
  induction fuel with
  | zero => intro i; simp [searchLoop, List.range']
  | succ f ih =>
      intro i
      have hsalt : (" " ++ pyChoice TOPICS (ch i)) = saltSeq ch (i + 1) := rfl
      rw [searchLoop]
      simp only [relatedTopics, subSendItems, List.lookup]
      rw [hsalt, ih (i + 1)]
      simp [List.range']

/-- C6 (amended): after each completed iteration, `search_subscribe` REPLACES
the salt with a single new space-prefixed random term
(`salt = " " + random.choice(TOPICS)`), so the first upstream query carries no
salt and every later query carries the topic plus exactly one salt term; the
salt does not accumulate. -/
theorem salt_c6 (topic : String) (ht : topic ∈ TOPICS) (ch : Nat → Nat)
    (un : Nat → Nat → Rat) (so : Nat → Nat → Bool) (fuel : Nat) :
    (search_subscribe topic (fun _ => UpstreamResp.ok (Json.obj [])) ch un so
        fuel).1 =
      Effect.connect :: (List.range fuel).map
        (fun j => Effect.httpGet (duckUrl (topic ++ saltSeq ch j))) ∧
    saltSeq ch 0 = "" ∧
    (∀ i, saltSeq ch (i + 1) = " " ++ pyChoice TOPICS (ch i)) := by
  refine ⟨?_, rfl, fun i => rfl⟩
  have h : searchLoop topic (fun _ => UpstreamResp.ok (Json.obj [])) ch un so
      fuel 0 "" =
      ((List.range' 0 fuel).map
          (fun j => Effect.httpGet (duckUrl (topic ++ saltSeq ch j))),
        Term.fuelOut) :=
    searchLoop_salts topic ch un so fuel 0
  simp [search_subscribe, ht, h, List.range_eq_range']

/-- Witness for C6 (amended) at topic "games". -/
theorem salt_c6_witness :
    ("games" ∈ TOPICS) ∧
    ((search_subscribe "games" (fun _ => UpstreamResp.ok (Json.obj []))
          (fun i => 2 + 2 * i) (fun _ _ => 0) (fun _ _ => true) 3).1 =
        Effect.connect :: (List.range 3).map
          (fun j =>
            Effect.httpGet (duckUrl ("games" ++ saltSeq (fun i => 2 + 2 * i) j))) ∧
      saltSeq (fun i => 2 + 2 * i) 0 = "" ∧
      (∀ i, saltSeq (fun i => 2 + 2 * i) (i + 1) =
        " " ++ pyChoice TOPICS (2 + 2 * i))) :=
  ⟨by decide, salt_c6 "games" (by decide) (fun i => 2 + 2 * i) (fun _ _ => 0)
    (fun _ _ => true) 3⟩

/-- Counterexample to C6 as stated: with the random choice stream picking
"vacations" then "jobs", the three successive upstream queries are for
"games", "games vacations", "games jobs" — the third query does not extend the
second (the salt was replaced, not appended; the query even shrinks). -/
theorem salt_c6_counterexample :
    getUrls (search_subscribe "games" (fun _ => UpstreamResp.ok (Json.obj []))
        (fun i => 2 + 2 * i) (fun _ _ => 0) (fun _ _ => true) 3).1 =
      ["https://api.duckduckgo.com/?q=games&format=json",
        "https://api.duckduckgo.com/?q=games vacations&format=json",
        "https://api.duckduckgo.com/?q=games jobs&format=json"] ∧
    pyStartswith "games jobs" "games vacations" = false ∧
    "games jobs".length < "games vacations".length := by
  refine ⟨by decide, by decide, by decide⟩

theorem pyUniform_one_le (u : Rat) : 1 ≤ pyUniform 1 5 u := by
  have h : (0 : Rat) ≤ max 0 (min 1 u) := le_max_left 0 _
  have h4 : (0 : Rat) ≤ (5 - 1) * max 0 (min 1 u) := by positivity
  simp only [pyUniform]
  linarith

theorem pyUniform_le_five (u : Rat) : pyUniform 1 5 u ≤ 5 := by
  have h1 : max 0 (min 1 u) ≤ 1 :=
    max_le (by norm_num) (min_le_left 1 u)
  have h2 : (5 - 1 : Rat) * max 0 (min 1 u) ≤ (5 - 1) * 1 := by
    have : (0 : Rat) ≤ 5 - 1 := by norm_num
    exact mul_le_mul_of_nonneg_left h1 this
  simp only [pyUniform]
  linarith

theorem subSendItems_discipline (upstream : Nat → UpstreamResp) (so : Nat → Bool)
    (un : Nat → Rat) :
    ∀ (items : List Json) (j : Nat) (rest : List Effect) (i : Nat),
    ((subSendItems so un items j).2 = true → SubDiscipline upstream rest i []) →
    ((subSendItems so un items j).2 = false → rest = []) →
    SubDiscipline upstream ((subSendItems so un items j).1 ++ rest) i items := by
  intro items
  induction items with
  | nil =>
      intro j rest i h1 h2
      exact h1 rfl
  | cons a l ih =>
      intro j rest i h1 h2
      cases hso : so j with
      | true =>
          simp only [subSendItems, hso, if_true, List.cons_append] at h1 h2 ⊢
          refine SubDiscipline.send a l _ i ?_
          refine SubDiscipline.pace _ _ i l (pyUniform_one_le _) (pyUniform_le_five _) ?_
          exact ih (j + 1) rest i h1 h2
      | false =>
          simp only [subSendItems, hso, if_false, List.nil_append] at h1 h2 ⊢
          have hr : rest = [] := h2 rfl
          subst hr
          exact SubDiscipline.nil i (a :: l)

theorem searchLoop_discipline (topic : String) (upstream : Nat → UpstreamResp)
    (ch : Nat → Nat) (un : Nat → Nat → Rat) (so : Nat → Nat → Bool) :
    ∀ (fuel i : Nat) (salt : String) (pend : List Json),
    SubDiscipline upstream (searchLoop topic upstream ch un so fuel i salt).1 i
      pend := by
  intro fuel
  induction fuel with
  | zero => intro i salt pend; exact SubDiscipline.nil i pend
  | succ f ih =>
      intro i salt pend
      cases hu : upstream i with
      | httpError c =>
          simp only [searchLoop, hu]
          refine SubDiscipline.query _ _ i pend ?_
          exact SubDiscipline.nil _ _
      | ok body =>
          have hresp : respItems (upstream i) = relatedTopics body := by
            rw [hu]; rfl
          simp only [searchLoop, hu]
          cases hin : (subSendItems (so i) (un i) (relatedTopics body) 0).2 with
          | true =>
              rw [if_pos rfl]
              refine SubDiscipline.query _ _ i pend ?_
              rw [hresp]
              refine subSendItems_discipline upstream (so i) (un i)
                (relatedTopics body) 0 _ (i + 1) (fun _ => ih (i + 1) _ []) ?_
              intro hfalse
              rw [hfalse] at hin
              cases hin
          | false =>
              rw [if_neg Bool.false_ne_true]
              refine SubDiscipline.query _ _ i pend ?_
              rw [hresp]
              have h := subSendItems_discipline upstream (so i) (un i)
                (relatedTopics body) 0 [] (i + 1)
                (fun _ => SubDiscipline.nil _ _) (fun _ => rfl)
              simpa using h

/-- C8: for a topic in the allow-list, the topic-subscribe handler's whole
trace obeys the discipline written from the claim: every JSON message sent to
the client is the next element, in list order, of the related-items list of
the most recent upstream query's response, and every pacing sleep between
sends is `random.uniform(1.0, 5.0)`, hence lies in the range 1 to 5 seconds. -/
theorem search_discipline_c8 (topic : String) (ht : topic ∈ TOPICS)
    (upstream : Nat → UpstreamResp) (ch : Nat → Nat) (un : Nat → Nat → Rat)
    (so : Nat → Nat → Bool) (fuel : Nat) :
    SubDiscipline upstream
      (search_subscribe topic upstream ch un so fuel).1 0 [] := by
  have hif : search_subscribe topic upstream ch un so fuel =
      (Effect.connect :: (searchLoop topic upstream ch un so fuel 0 "").1,
        (searchLoop topic upstream ch un so fuel 0 "").2) := by
    simp [search_subscribe, ht]
  rw [hif]
  exact SubDiscipline.conn _ 0 []
    (searchLoop_discipline topic upstream ch un so fuel 0 "" [])

/-- Witness for C8 at topic "games" with a two-item related-items list. -/
theorem search_discipline_c8_witness :
    ("games" ∈ TOPICS) ∧
    SubDiscipline
      (fun _ => UpstreamResp.ok
        (Json.obj [("RelatedTopics", Json.arr [Json.num 3, Json.str "x"])]))
      (search_subscribe "games"
        (fun _ => UpstreamResp.ok
          (Json.obj [("RelatedTopics", Json.arr [Json.num 3, Json.str "x"])]))
        (fun _ => 0) (fun _ _ => 0) (fun _ _ => true) 2).1 0 [] :=
  ⟨by decide, search_discipline_c8 "games" (by decide) _ _ _ _ 2⟩

theorem randint_le (r : Nat) : randint 0 1000000 r ≤ 1000000 := by
  simp only [randint]
  omega

theorem jsonRecord_schema (n : Nat) (hn : n ≤ 1000000) (a b c d : String) :
    hasIntField (jsonRecord n a b c d) "int" ∧
    hasStrField (jsonRecord n a b c d) "uuid1" ∧
    hasStrField (jsonRecord n a b c d) "uuid3" ∧
    hasStrField (jsonRecord n a b c d) "uuid4" ∧
    hasStrField (jsonRecord n a b c d) "uuid5" := by
  refine ⟨⟨(n : Int), rfl, ?_, ?_⟩, ⟨a, rfl⟩, ⟨b, rfl⟩, ⟨c, rfl⟩, ⟨d, rfl⟩⟩
  · exact Int.ofNat_nonneg n
  · exact_mod_cast hn

theorem producerJsonLoop_sendJson (ints : Nat → Nat) (u1 u3 u4 u5 : Nat → String)
    (sendOk : Nat → Bool) :
    ∀ (fuel i : Nat) (j : Json),
    Effect.sendJson j ∈ (producerJsonLoop ints u1 u3 u4 u5 sendOk fuel i).1 →
    ∃ k, j = jsonRecord (randint 0 1000000 (ints k)) (u1 k) (u3 k) (u4 k) (u5 k) := by
  intro fuel
  induction fuel with
  | zero => intro i j h; simp [producerJsonLoop] at h
  | succ f ih =>
      intro i j h
      cases hs : sendOk i with
      | false => rw [producerJsonLoop, if_neg (by simp [hs])] at h; simp at h
      | true =>
          rw [producerJsonLoop, if_pos (by simp [hs])] at h
          rcases List.mem_cons.mp h with h1 | h1
          · exact ⟨i, by injection h1⟩
          · rcases List.mem_cons.mp h1 with h2 | h2
            · cases h2
            · exact ih (i + 1) j h2

theorem producerLoop_send (ints : Nat → Nat) (sendOk : Nat → Bool) :
    ∀ (fuel i : Nat) (s : String),
    Effect.send s ∈ (producerLoop ints sendOk fuel i).1 →
    ∃ k, s = toString (randint 0 1000000 (ints k)) := by
  intro fuel
  induction fuel with
  | zero => intro i s h; simp [producerLoop] at h
  | succ f ih =>
      intro i s h
      cases hs : sendOk i with
      | false => rw [producerLoop, if_neg (by simp [hs])] at h; simp at h
      | true =>
          rw [producerLoop, if_pos (by simp [hs])] at h
          rcases List.mem_cons.mp h with h1 | h1
          · exact ⟨i, by injection h1⟩
          · exact ih (i + 1) s h1

/-- C9: every JSON message the JSON producer sends is an object carrying the
numeric field "int" with a value between 0 and 1000000 inclusive and the four
string identifier fields "uuid1", "uuid3", "uuid4", "uuid5"; and every text
message the plain producer sends is the decimal rendering of an integer
between 0 and 1000000 inclusive. -/
theorem producer_schema_c9 (ints : Nat → Nat) (u1 u3 u4 u5 : Nat → String)
    (sendOkJ sendOkP : Nat → Bool) (fuel : Nat) :
    (∀ j : Json,
      Effect.sendJson j ∈ (producer_of_json ints u1 u3 u4 u5 sendOkJ fuel).1 →
      hasIntField j "int" ∧ hasStrField j "uuid1" ∧ hasStrField j "uuid3" ∧
        hasStrField j "uuid4" ∧ hasStrField j "uuid5") ∧
    (∀ s : String, Effect.send s ∈ (producer ints sendOkP fuel).1 →
      ∃ n : Nat, n ≤ 1000000 ∧ s = toString n) := by
  constructor
  · intro j hj
    have hm : Effect.sendJson j ∈
        (producerJsonLoop ints u1 u3 u4 u5 sendOkJ fuel 0).1 := by
      rcases List.mem_cons.mp hj with h | h
      · cases h
      · exact h
    obtain ⟨k, hk⟩ := producerJsonLoop_sendJson ints u1 u3 u4 u5 sendOkJ fuel 0 j hm
    subst hk
    exact jsonRecord_schema _ (randint_le _) _ _ _ _
  · intro s hs
    have hm : Effect.send s ∈ (producerLoop ints sendOkP fuel 0).1 := by
      rcases List.mem_cons.mp hs with h | h
      · cases h
      · exact h
    obtain ⟨k, hk⟩ := producerLoop_send ints sendOkP fuel 0 s hm
    exact ⟨randint 0 1000000 (ints k), randint_le _, hk⟩

/-- Witness for C9: the first record of a one-iteration run of each
producer. -/
theorem producer_schema_c9_witness :
    (hasIntField (jsonRecord (randint 0 1000000 0) "a" "b" "c" "d") "int" ∧
      hasStrField (jsonRecord (randint 0 1000000 0) "a" "b" "c" "d") "uuid1" ∧
      hasStrField (jsonRecord (randint 0 1000000 0) "a" "b" "c" "d") "uuid3" ∧
      hasStrField (jsonRecord (randint 0 1000000 0) "a" "b" "c" "d") "uuid4" ∧
      hasStrField (jsonRecord (randint 0 1000000 0) "a" "b" "c" "d") "uuid5") ∧
    (∃ n : Nat, n ≤ 1000000 ∧ toString (randint 0 1000000 0) = toString n) := by
  have h := producer_schema_c9 (fun _ => 0) (fun _ => "a") (fun _ => "b")
    (fun _ => "c") (fun _ => "d") (fun _ => true) (fun _ => true) 1
  constructor
  · exact h.1 (jsonRecord (randint 0 1000000 0) "a" "b" "c" "d")
      (by simp [producer_of_json, producerJsonLoop])
  · exact h.2 (toString (randint 0 1000000 0))
      (by simp [producer, producerLoop])

end WS
